import Mathlib

/-!
Shallow embedding of the contact-form backend in src/app.py (a Flask
application) and proofs about the claims of its specification.

Strings are modelled as `List Char` (Python strings are sequences of
code points).  Python whitespace and digit classes are modelled over the
ASCII fragment, which is all the validation logic and every message in
the program touch.
-/

set_option autoImplicit false
set_option linter.unusedVariables false

namespace DataStudio

/-- Python whitespace characters (the ASCII fragment of both `str.strip`
and the regex class backslash-s: space, tab, newline, carriage return,
vertical tab, form feed). -/
def pyWhite (c : Char) : Bool :=
  c = ' ' || c = '\t' || c = '\n' || c = '\r' || c = '\x0b' || c = '\x0c'

/-- Left part of Python `str.strip`: drop leading whitespace. -/
def pyLStrip (l : List Char) : List Char := l.dropWhile pyWhite

/-- Right part of Python `str.strip`: drop trailing whitespace. -/
def pyRStrip (l : List Char) : List Char := (l.reverse.dropWhile pyWhite).reverse

/-- Python `str.strip`: drop leading and trailing whitespace. -/
def pyStrip (l : List Char) : List Char := pyRStrip (pyLStrip l)

/-- Function `_clean_text` of src/app.py: strip surrounding whitespace,
then truncate to at most `max_len` characters (`value[:max_len]`). -/
def _clean_text (value : List Char) (max_len : Nat) : List Char :=
  if max_len < (pyStrip value).length then (pyStrip value).take max_len
  else pyStrip value

/-- Character class of the phone regex body, `[\d\s()\-]` in src/app.py:
digit, whitespace, parenthesis or hyphen. -/
def phoneBody (c : Char) : Bool :=
  c.isDigit || pyWhite c || c = '(' || c = ')' || c = '-'

/-- Matching of the part of the phone regex after the optional plus:
a digit followed by at least seven characters of the body class,
extending to the end of the string. -/
def phoneCore (l : List Char) : Bool :=
  match l with
  | [] => false
  | d :: rest => d.isDigit && rest.all phoneBody && decide (7 ≤ rest.length)

/-- Function `_is_valid_phone` of src/app.py: Python
`re.match` of the anchored pattern `\+?` then `\d` then `[\d\s()\-]`
repeated at least 7 times, then end of string.  The dollar anchor of the
source pattern also accepts a single final newline, but a newline is
itself in the body class, so that case is subsumed by the plain
end-of-string reading and this embedding is exact. -/
def _is_valid_phone (value : List Char) : Bool :=
  match value with
  | [] => false
  | c :: rest => if c = '+' then phoneCore rest else phoneCore (c :: rest)

/-! JSON values, as produced by `response.json()` in src/app.py.  The
object and array cases use their own mutual inductives so that all
recursions below are structural. -/

mutual

/-- A JSON value as decoded by Python: null, boolean, number, string,
array or object.  Numbers are modelled as integers (no claim touches
floats). -/
inductive JVal where
  | jnull
  | jbool (b : Bool)
  | jnum (n : Int)
  | jstr (s : List Char)
  | jarr (elems : JArr)
  | jobj (fields : JObj)

/-- A list of JSON values (array elements). -/
inductive JArr where
  | anil
  | acons (v : JVal) (rest : JArr)

/-- A list of key-value pairs (object fields); keys from Python's JSON
decoder are unique. -/
inductive JObj where
  | onil
  | ocons (key : List Char) (v : JVal) (rest : JObj)

end

/-- Python `dict.get`: the value of a key, or `none` when absent. -/
def jget (fields : JObj) (key : List Char) : Option JVal :=
  match fields with
  | .onil => none
  | .ocons k v rest => if k = key then some v else jget rest key

/-- Python truthiness of a JSON value: null, false, zero and the empty
string/array/object are falsy. -/
def truthy : JVal → Bool
  | .jnull => false
  | .jbool b => b
  | .jnum n => decide (n ≠ 0)
  | .jstr s => decide (s ≠ [])
  | .jarr .anil => false
  | .jarr (.acons _ _) => true
  | .jobj .onil => false
  | .jobj (.ocons _ _ _) => true

mutual

/-- Python `repr` of a JSON value, restricted to the fragment the code
can meet; escaping inside string reprs is elided (no claim inspects the
repr of a string containing a quote). -/
def pyRepr : JVal → List Char
  | .jnull => "None".data
  | .jbool true => "True".data
  | .jbool false => "False".data
  | .jnum n => (toString n).data
  | .jstr s => '\x27' :: (s ++ ['\x27'])
  | .jarr a => '[' :: (pyReprArr a ++ [']'])
  | .jobj o => '\x7b' :: (pyReprObj o ++ ['\x7d'])

/-- Comma-separated reprs of array elements. -/
def pyReprArr : JArr → List Char
  | .anil => []
  | .acons v .anil => pyRepr v
  | .acons v rest => pyRepr v ++ (',' :: ' ' :: pyReprArr rest)

/-- Comma-separated reprs of object entries. -/
def pyReprObj : JObj → List Char
  | .onil => []
  | .ocons k v .onil => '\x27' :: (k ++ ('\x27' :: ':' :: ' ' :: pyRepr v))
  | .ocons k v rest =>
      ('\x27' :: (k ++ ('\x27' :: ':' :: ' ' :: pyRepr v))) ++
        (',' :: ' ' :: pyReprObj rest)

end

/-- Python `str` of a JSON value: a string is itself, anything else is
its repr. -/
def pyStr : JVal → List Char
  | .jstr s => s
  | v => pyRepr v

/-- Behaviour of the remote sink for one `requests.post` call: either a
`requests.RequestException` (connection error, timeout, ...) or a
response with a status code and the result of `response.json()`
(`none` = the body is not valid JSON, so `ValueError` is raised). -/
inductive NetResult where
  | exn
  | resp (status : Nat) (body : Option JVal)

/-- Message returned by `_send_to_sheets` on a network exception. -/
def sheetsNetErrMsg : List Char :=
  "Google Sheets bilan bog\x27lanishda xatolik yuz berdi.".data

/-- Message returned by `_send_to_sheets` on an HTTP error status. -/
def sheetsHttpErrMsg (status : Nat) : List Char :=
  "Google Sheets xatosi: HTTP ".data ++ (toString status).data ++ ".".data

/-- Message returned by `_send_to_sheets` on an unparseable body. -/
def sheetsParseErrMsg : List Char :=
  "Google Sheets javobi tushunarsiz.".data

/-- Fallback message when a failing JSON body has no message/error field. -/
def sheetsDefaultBodyMsg : List Char :=
  "Google Sheets javobida xatolik bor.".data

/-- Test `data.get("ok") is True` of src/app.py: the field value is the
boolean true (Python identity with `True`). -/
def isJTrue : Option JVal → Bool
  | some (.jbool true) => true
  | _ => false

/-- Test `data.get("status") == "ok"` of src/app.py: the field value is
the string ok. -/
def isJOkStr : Option JVal → Bool
  | some (.jstr s) => decide (s = "ok".data)
  | _ => false

/-- The success test of `_send_to_sheets` on a decoded JSON object:
`data.get("ok") is True or data.get("status") == "ok"`. -/
def sheetsIndicatesSuccess (fields : JObj) : Bool :=
  isJTrue (jget fields ("ok".data)) || isJOkStr (jget fields ("status".data))

/-- Python `a or b` on an optional field value: the value when present
and truthy, otherwise the alternative. -/
def orTruthy (v : Option JVal) (w : JVal) : JVal :=
  match v with
  | some x => if truthy x then x else w
  | none => w

/-- The failing-body message of `_send_to_sheets`:
`data.get("message") or data.get("error") or` the fallback. -/
def sheetsFailureMessage (fields : JObj) : JVal :=
  orTruthy (jget fields ("message".data))
    (orTruthy (jget fields ("error".data)) (.jstr sheetsDefaultBodyMsg))

/-- A submission record as written to data/requests.jsonl: the four
cleaned fields and the creation timestamp. -/
structure Record where
  name : List Char
  phone : List Char
  service : List Char
  message : List Char
  created_at : List Char
deriving DecidableEq

/-- Function `_send_to_sheets` of src/app.py.  `payload` is the posted
JSON body (it only reaches the remote side, whose behaviour is the
parameter `net`).  Result `some (ok, msg)` is the returned pair;
`none` models the `AttributeError` escaping the function when
`response.json()` is not a dict (`data.get` on a non-object). -/
def _send_to_sheets (url : List Char) (payload : Record) (net : NetResult) :
    Option (Bool × List Char) :=
  if url = [] then some (true, [])
  else
    match net with
    | .exn => some (false, sheetsNetErrMsg)
    | .resp status body =>
      if 400 ≤ status then some (false, sheetsHttpErrMsg status)
      else
        match body with
        | none => some (false, sheetsParseErrMsg)
        | some (.jobj fields) =>
          if sheetsIndicatesSuccess fields then some (true, [])
          else some (false, pyStr (sheetsFailureMessage fields))
        | some _ => none

/-- The hardcoded default webhook of src/app.py lines 17-20. -/
def defaultWebhookUrl : List Char :=
  "https://script.google.com/macros/s/AKfycbwwBcsesn-Z8I6hohmGZvGIbg4QiA3HaZU3y7HlCuX2YNjT32W1BQUx-ZCsa-6RZm4mlw/exec".data

/-- Configuration value `SHEETS_WEBHOOK_URL` of src/app.py, as a function
of the environment variable (`none` = unset): the stripped variable when
non-empty, else the hardcoded default. -/
def SHEETS_WEBHOOK_URL (env : Option (List Char)) : List Char :=
  if pyStrip (env.getD []) = [] then defaultWebhookUrl
  else pyStrip (env.getD [])

/-- The two request headers read by `_wants_json` in src/app.py
(`none` = header absent). -/
structure Headers where
  xRequestedWith : Option (List Char)
  accept : Option (List Char)
deriving DecidableEq

/-- Test whether the first list occurs at the start of the second. -/
def beginsWith : List Char → List Char → Bool
  | [], _ => true
  | _ :: _, [] => false
  | a :: as, b :: bs => (a == b) && beginsWith as bs

/-- Python substring test `needle in hay`. -/
def hasSubstr (needle : List Char) : List Char → Bool
  | [] => needle.isEmpty
  | c :: rest => beginsWith needle (c :: rest) || hasSubstr needle rest

/-- Function `_wants_json` of src/app.py: the X-Requested-With header
equals fetch, or application/json occurs in the Accept header (absent
headers read as the empty string via the dict-get defaults). -/
def _wants_json (h : Headers) : Bool :=
  decide (h.xRequestedWith = some ("fetch".data)) ||
    hasSubstr ("application/json".data) (h.accept.getD [])

/-- The raw form fields of a POST to /contact (`none` = field absent,
read as the empty string by `request.form.get(field, "")`). -/
structure RawForm where
  name : Option (List Char)
  phone : Option (List Char)
  service : Option (List Char)
  message : Option (List Char)
deriving DecidableEq

/-- The cleaned form fields (`form_data` in src/app.py). -/
structure FormData where
  name : List Char
  phone : List Char
  service : List Char
  message : List Char
deriving DecidableEq

/-- Building of `form_data` in the `contact` handler: each field cleaned
with its field-specific maximum length (120, 40, 80, 1000). -/
def cleanForm (f : RawForm) : FormData :=
  { name := _clean_text (f.name.getD []) 120
    phone := _clean_text (f.phone.getD []) 40
    service := _clean_text (f.service.getD []) 80
    message := _clean_text (f.message.getD []) 1000 }

/-- Validation message for a too-short name. -/
def nameErrMsg : List Char :=
  "Ism yoki tashkilot nomi kamida 2 ta belgidan iborat bo\x27lishi kerak.".data

/-- Validation message for an invalid phone. -/
def phoneErrMsg : List Char :=
  "Telefon raqami noto\x27g\x27ri. Namuna: +998 90 123 45 67.".data

/-- Generic accepted-but-not-forwarded message of the forwarding-failure
response. -/
def acceptedNotForwardedMsg : List Char :=
  "So\x27rov qabul qilindi, lekin Google Sheets ga yozilmadi.".data

/-- The validation of the `contact` handler: the name-length check and
the phone-shape check, their messages collected in that order. -/
def formErrors (fd : FormData) : List (List Char) :=
  (if fd.name.length < 2 then [nameErrMsg] else []) ++
    (if _is_valid_phone fd.phone then [] else [phoneErrMsg])

/-- The response of the `contact` handler: a re-rendered form page with
errors and the echoed form data (HTTP 200), a JSON error object with a
status code, the JSON success object (HTTP 200), or the success redirect
(HTTP 302). -/
inductive ContactResp where
  | formPage (errors : List (List Char)) (form_data : FormData)
  | jsonErrors (status : Nat) (errors : List (List Char))
  | jsonOk
  | redirectSubmitted
deriving DecidableEq

/-- HTTP status of a response: `render_template` and `jsonify` default
to 200, `redirect` to 302, the tuple forms carry their status. -/
def respStatus : ContactResp → Nat
  | .formPage _ _ => 200
  | .jsonErrors s _ => s
  | .jsonOk => 200
  | .redirectSubmitted => 302

/-- The form-data echo carried by a response, when any. -/
def respEchoesForm : ContactResp → Option FormData
  | .formPage _ fd => some fd
  | _ => none

/-- Observable outcome of one request: the response (`none` = an
unhandled exception escaped the handler), the lines appended to the
submissions log (as records; the JSON-line serialization is injective on
records so line counts and record counts coincide), and the lines
appended to the failures log. -/
structure ContactOutcome where
  resp : Option ContactResp
  submissionsLog : List Record
  failuresLog : List (List Char)
deriving DecidableEq

/-- The `payload` record built in the `contact` handler. -/
def mkRecord (fd : FormData) (created_at : List Char) : Record :=
  ⟨fd.name, fd.phone, fd.service, fd.message, created_at⟩

/-- Function `_log_sheets_failure` of src/app.py, as the list of lines it
appends: nothing for an empty message, else one line of the timestamp, a
space and the message. -/
def _log_sheets_failure (tLog message : List Char) : List (List Char) :=
  if message = [] then [] else [tLog ++ (' ' :: message)]

/-- The POST /contact handler of src/app.py.  `url` is the configured
webhook, `hdrs` the request headers, `form` the posted fields, `net` the
remote sink's behaviour for the one forwarding attempt, `now` the
timestamp taken for `created_at` and `tLog` the timestamp taken inside
`_log_sheets_failure`.  The local write at line 114 happens after
`_send_to_sheets` returns, so when that call raises (result `none`)
nothing is written. -/
def contact (url : List Char) (hdrs : Headers) (form : RawForm)
    (net : NetResult) (now tLog : List Char) : ContactOutcome :=
  let form_data := cleanForm form
  let errors := formErrors form_data
  if errors ≠ [] then
    if _wants_json hdrs then ⟨some (.jsonErrors 400 errors), [], []⟩
    else ⟨some (.formPage errors form_data), [], []⟩
  else
    let payload := mkRecord form_data now
    match _send_to_sheets url payload net with
    | none => ⟨none, [], []⟩
    | some (sheets_ok, sheets_error) =>
      if sheets_ok then
        if _wants_json hdrs then ⟨some .jsonOk, [payload], []⟩
        else ⟨some .redirectSubmitted, [payload], []⟩
      else
        if _wants_json hdrs then
          ⟨some (.jsonErrors 502 [acceptedNotForwardedMsg, sheets_error]),
            [payload], _log_sheets_failure tLog sheets_error⟩
        else
          ⟨some (.formPage [acceptedNotForwardedMsg, sheets_error] form_data),
            [payload], _log_sheets_failure tLog sheets_error⟩

/-- Modelled from the spec: the lenient-mode variant of the submission
handler.  The repository source under src/ holds only the strict variant
(app.py); the spec describes a second, lenient variant (section 4.4
Lenient mode, section 4.7 rule 4, section 7): validation is as in rule 1,
the local write always proceeds once validation passes, the forwarding
attempt's outcome is ignored entirely, no failure is ever logged, and the
response is always the success response (redirect in the browser flow,
JSON success object in the machine flow). -/
def contactLenient (hdrs : Headers) (form : RawForm) (net : NetResult)
    (now : List Char) : ContactOutcome :=
  let form_data := cleanForm form
  let errors := formErrors form_data
  if errors ≠ [] then
    if _wants_json hdrs then ⟨some (.jsonErrors 400 errors), [], []⟩
    else ⟨some (.formPage errors form_data), [], []⟩
  else
    if _wants_json hdrs then ⟨some .jsonOk, [mkRecord form_data now], []⟩
    else ⟨some .redirectSubmitted, [mkRecord form_data now], []⟩

/-- Replacing of absent form fields by the present empty string. -/
def fillForm (f : RawForm) : RawForm :=
  ⟨some (f.name.getD []), some (f.phone.getD []),
    some (f.service.getD []), some (f.message.getD [])⟩

/-- A form whose fields all pass validation. -/
def sampleOkForm : RawForm :=
  ⟨some ("Ali".data), some ("+998901234567".data), some [], some []⟩

/-- Headers of a plain browser request (no JSON preference). -/
def browserHdrs : Headers := ⟨none, none⟩

/-- Headers of a machine request (X-Requested-With: fetch). -/
def fetchHdrs : Headers := ⟨some ("fetch".data), none⟩

/-- A concrete record for instantiating forwarder theorems. -/
def sampleRecord : Record :=
  ⟨"Ali".data, "+998901234567".data, [], [], "2026-01-01T00:00:00+00:00".data⟩

/-! Helper lemmas about cleaning. -/

theorem length_pyLStrip_le (l : List Char) : (pyLStrip l).length ≤ l.length :=
  (List.dropWhile_sublist pyWhite (l := l)).length_le

theorem length_pyRStrip_le (l : List Char) : (pyRStrip l).length ≤ l.length := by
  have h := (List.dropWhile_sublist pyWhite (l := l.reverse)).length_le
  simpa [pyRStrip] using h

theorem length_pyStrip_le (l : List Char) : (pyStrip l).length ≤ l.length :=
  le_trans (length_pyRStrip_le (pyLStrip l)) (length_pyLStrip_le l)

theorem length_clean_le (x : List Char) (n : Nat) :
    (_clean_text x n).length ≤ n := by
  unfold _clean_text
  split
  · simp [List.length_take]
  · omega

theorem clean_of_short (y : List Char) (n : Nat) (h : y.length ≤ n) :
    _clean_text y n = pyStrip y := by
  have hs := length_pyStrip_le y
  unfold _clean_text
  rw [if_neg (by omega)]

/-- C5 counterexample: cleaning is not idempotent.  With maximum length 3
and input ab-space-cd, the first clean strips nothing and truncates to
ab-space; the second clean strips the trailing space. -/
theorem C5_cex :
    _clean_text (_clean_text ("ab cd".data) 3) 3 ≠ _clean_text ("ab cd".data) 3 := by
  decide

/-- C5 (amended): applying the field cleaner a second time is exactly
stripping the once-cleaned value; hence clean(clean(x,n),n) = clean(x,n)
precisely when truncation left no trailing whitespace, in particular
whenever no truncation occurred. -/
theorem C5_amended (x : List Char) (n : Nat) :
    _clean_text (_clean_text x n) n = pyStrip (_clean_text x n) :=
  clean_of_short _ _ (length_clean_le x n)

/-! Helper lemma for the phone regex. -/

theorem phoneCore_append (l t : List Char) (h : phoneCore l = true) :
    (phoneCore (l ++ t) = true ↔ t.all phoneBody = true) := by
  cases l with
  | nil => simp [phoneCore] at h
  | cons d rest =>
    simp only [phoneCore, Bool.and_eq_true, decide_eq_true_eq] at h
    obtain ⟨⟨hd, hrest⟩, hlen⟩ := h
    simp only [List.cons_append, phoneCore, Bool.and_eq_true, decide_eq_true_eq,
      List.all_append, List.length_append, hd, hrest, true_and]
    constructor
    · intro hh
      exact hh.1
    · intro ht
      exact ⟨ht, by omega⟩

/-- C4 counterexample: the phone pattern is anchored at the end as well.
The string +998901234567 is a valid phone, yet with the single trailing
character x appended the validator rejects, where the claim says every
trailing suffix is tolerated. -/
theorem C4_cex :
    _is_valid_phone ("+998901234567".data) = true ∧
      _is_valid_phone ("+998901234567".data ++ "x".data) = false := by
  decide

/-- C4 (amended): the phone pattern is anchored at both ends; appending a
suffix to a string the validator accepts keeps it accepted exactly when
every appended character is in the body class (digit, whitespace,
parenthesis or hyphen); any other trailing character causes rejection. -/
theorem C4_amended (s t : List Char) (h : _is_valid_phone s = true) :
    (_is_valid_phone (s ++ t) = true ↔ t.all phoneBody = true) := by
  cases s with
  | nil => simp [_is_valid_phone] at h
  | cons c rest =>
    by_cases hc : c = '+'
    · subst hc
      rw [_is_valid_phone, if_pos rfl] at h
      rw [List.cons_append, _is_valid_phone, if_pos rfl]
      exact phoneCore_append rest t h
    · rw [_is_valid_phone, if_neg hc] at h
      rw [List.cons_append, _is_valid_phone, if_neg hc]
      have hh := phoneCore_append (c :: rest) t h
      simpa [List.cons_append] using hh

/-- C4 witness: a concrete application of the amended theorem, appending
the in-class suffix space-8-9 to a valid phone keeps it valid. -/
theorem C4_w :
    _is_valid_phone ("+998901234567".data ++ " 89".data) = true :=
  (C4_amended ("+998901234567".data) (" 89".data) (by decide)).mpr (by decide)

/-- C9: with the empty string as configured webhook endpoint, the
forwarder returns the success outcome for every payload and every
behaviour of the network, so the result does not depend on the network
at all (no request is attempted). -/
theorem C9_thm (p : Record) (net : NetResult) :
    _send_to_sheets [] p net = some (true, []) := by
  unfold _send_to_sheets
  rw [if_pos rfl]

/-- C6 counterexample: a well-formed JSON body that is not an object (here
the empty array, whose content indicates no success) makes the forwarder
raise an unhandled AttributeError (`data.get` on a list) instead of
returning a failure outcome, against the configured default webhook. -/
theorem C6_cex :
    _send_to_sheets (SHEETS_WEBHOOK_URL none) sampleRecord
      (.resp 200 (some (.jarr .anil))) = none := by
  decide

/-- C6 (amended): with a non-empty endpoint, a network failure, an HTTP
status of at least 400, an unparseable body, and a JSON object body whose
content does not indicate success all yield a failure outcome, the last
with the message extracted from the message or error field or the generic
fallback; only a JSON body that is not an object escapes as an unhandled
error (see the counterexample). -/
theorem C6_amended (url : List Char) (p : Record) (hurl : url ≠ []) :
    _send_to_sheets url p .exn = some (false, sheetsNetErrMsg) ∧
    (∀ s b, 400 ≤ s →
      _send_to_sheets url p (.resp s b) = some (false, sheetsHttpErrMsg s)) ∧
    (∀ s, s < 400 →
      _send_to_sheets url p (.resp s none) = some (false, sheetsParseErrMsg)) ∧
    (∀ s fields, s < 400 → sheetsIndicatesSuccess fields = false →
      _send_to_sheets url p (.resp s (some (.jobj fields))) =
        some (false, pyStr (sheetsFailureMessage fields))) := by
  refine ⟨?_, ?_, ?_, ?_⟩
  · simp [_send_to_sheets, hurl]
  · intro s b hs
    simp [_send_to_sheets, hurl, hs]
  · intro s hs
    simp [_send_to_sheets, hurl, Nat.not_le.mpr hs]
  · intro s fields hs hok
    simp [_send_to_sheets, hurl, Nat.not_le.mpr hs, hok]

/-- C6 witness: the amended theorem applied at a concrete endpoint, with
the four failing situations instantiated concretely. -/
theorem C6_w :
    _send_to_sheets ("u".data) sampleRecord .exn = some (false, sheetsNetErrMsg) ∧
    _send_to_sheets ("u".data) sampleRecord (.resp 500 none) =
      some (false, sheetsHttpErrMsg 500) ∧
    _send_to_sheets ("u".data) sampleRecord (.resp 200 none) =
      some (false, sheetsParseErrMsg) ∧
    _send_to_sheets ("u".data) sampleRecord (.resp 200 (some (.jobj .onil))) =
      some (false, pyStr (sheetsFailureMessage .onil)) := by
  have h := C6_amended ("u".data) sampleRecord (by decide)
  exact ⟨h.1, h.2.1 500 none (by decide), h.2.2.1 200 (by decide),
    h.2.2.2 200 .onil (by decide) (by decide)⟩

/-- C8: the validator does not short-circuit.  For every four raw inputs,
the name message appears exactly when the cleaned name is shorter than 2,
the phone message exactly when the cleaned phone fails the shape check
(each regardless of the other check), and when both checks fail the error
list is exactly the name message followed by the phone message. -/
theorem C8_thm (rn rp rs rm : List Char) :
    (nameErrMsg ∈ formErrors (cleanForm ⟨some rn, some rp, some rs, some rm⟩) ↔
      (cleanForm ⟨some rn, some rp, some rs, some rm⟩).name.length < 2) ∧
    (phoneErrMsg ∈ formErrors (cleanForm ⟨some rn, some rp, some rs, some rm⟩) ↔
      _is_valid_phone (cleanForm ⟨some rn, some rp, some rs, some rm⟩).phone = false) ∧
    ((cleanForm ⟨some rn, some rp, some rs, some rm⟩).name.length < 2 →
      _is_valid_phone (cleanForm ⟨some rn, some rp, some rs, some rm⟩).phone = false →
      formErrors (cleanForm ⟨some rn, some rp, some rs, some rm⟩) =
        [nameErrMsg, phoneErrMsg]) := by
  have hne : nameErrMsg ≠ phoneErrMsg := by decide
  set fd := cleanForm ⟨some rn, some rp, some rs, some rm⟩ with hfd
  by_cases h1 : fd.name.length < 2 <;> by_cases h2 : _is_valid_phone fd.phone <;>
    simp [formErrors, h1, h2, hne, hne.symm]

/-- C8 witness: the theorem applied at a concrete input failing both
checks: the error list is exactly the two messages in order. -/
theorem C8_w :
    formErrors (cleanForm ⟨some ("A".data), some ("x".data), some [], some []⟩) =
      [nameErrMsg, phoneErrMsg] :=
  (C8_thm ("A".data) ("x".data) [] []).2.2 (by decide) (by decide)

/-! Characterizations of the two top-level branches of the contact
handler, shared by the claims below. -/

theorem contact_of_errors (url : List Char) (hdrs : Headers) (form : RawForm)
    (net : NetResult) (now tLog : List Char)
    (h : formErrors (cleanForm form) ≠ []) :
    contact url hdrs form net now tLog =
      if _wants_json hdrs then
        ⟨some (.jsonErrors 400 (formErrors (cleanForm form))), [], []⟩
      else ⟨some (.formPage (formErrors (cleanForm form)) (cleanForm form)), [], []⟩ := by
  simp only [contact]
  rw [if_pos h]

theorem contact_of_ok (url : List Char) (hdrs : Headers) (form : RawForm)
    (net : NetResult) (now tLog : List Char)
    (h : formErrors (cleanForm form) = []) :
    contact url hdrs form net now tLog =
      match _send_to_sheets url (mkRecord (cleanForm form) now) net with
      | none => ⟨none, [], []⟩
      | some (sheets_ok, sheets_error) =>
        if sheets_ok then
          if _wants_json hdrs then
            ⟨some .jsonOk, [mkRecord (cleanForm form) now], []⟩
          else ⟨some .redirectSubmitted, [mkRecord (cleanForm form) now], []⟩
        else
          if _wants_json hdrs then
            ⟨some (.jsonErrors 502 [acceptedNotForwardedMsg, sheets_error]),
              [mkRecord (cleanForm form) now], _log_sheets_failure tLog sheets_error⟩
          else
            ⟨some (.formPage [acceptedNotForwardedMsg, sheets_error] (cleanForm form)),
              [mkRecord (cleanForm form) now], _log_sheets_failure tLog sheets_error⟩ := by
  simp only [contact]
  rw [if_neg (by simp [h])]

/-- C1 counterexample: a browser-flow submission that passes validation
and whose forward fails with HTTP 500 is answered with a re-rendered form
page at HTTP 200, not with HTTP 502 as the claim states for every
submission. -/
theorem C1_cex :
    (contact (SHEETS_WEBHOOK_URL none) browserHdrs sampleOkForm
      (.resp 500 none) ("T1".data) ("T2".data)).resp.map respStatus = some 200 := by
  decide

/-- C1 (amended): in strict mode, for every submission passing validation
whose forward meets HTTP 500, the machine/JSON flow responds HTTP 502
with the forwarding-error messages while the browser flow re-renders the
form page (HTTP 200) with the same messages and the cleaned values; in
both flows the submissions log receives exactly one new record and the
failure log gains exactly one new timestamped line. -/
theorem C1_amended (url : List Char) (hdrs : Headers) (form : RawForm)
    (body : Option JVal) (now tLog : List Char)
    (hurl : url ≠ []) (hv : formErrors (cleanForm form) = []) :
    (contact url hdrs form (.resp 500 body) now tLog).submissionsLog =
      [mkRecord (cleanForm form) now] ∧
    (contact url hdrs form (.resp 500 body) now tLog).failuresLog =
      [tLog ++ (' ' :: sheetsHttpErrMsg 500)] ∧
    (contact url hdrs form (.resp 500 body) now tLog).resp =
      some (if _wants_json hdrs then
              ContactResp.jsonErrors 502 [acceptedNotForwardedMsg, sheetsHttpErrMsg 500]
            else .formPage [acceptedNotForwardedMsg, sheetsHttpErrMsg 500]
              (cleanForm form)) := by
  have hsend : _send_to_sheets url (mkRecord (cleanForm form) now) (.resp 500 body) =
      some (false, sheetsHttpErrMsg 500) := by
    simp [_send_to_sheets, hurl]
  have hmsg : sheetsHttpErrMsg 500 ≠ [] := by decide
  rw [contact_of_ok url hdrs form (.resp 500 body) now tLog hv, hsend]
  cases hw : _wants_json hdrs <;> simp [hw, _log_sheets_failure, hmsg]

/-- C1 witness: the amended theorem at a concrete machine-flow request:
one record in the submissions log, one timestamped failure line, and the
502 JSON error response. -/
theorem C1_w :
    (contact ("u".data) fetchHdrs sampleOkForm (.resp 500 none)
      ("T1".data) ("T2".data)).submissionsLog =
        [mkRecord (cleanForm sampleOkForm) ("T1".data)] ∧
    (contact ("u".data) fetchHdrs sampleOkForm (.resp 500 none)
      ("T1".data) ("T2".data)).failuresLog =
        ["T2".data ++ (' ' :: sheetsHttpErrMsg 500)] ∧
    (contact ("u".data) fetchHdrs sampleOkForm (.resp 500 none)
      ("T1".data) ("T2".data)).resp =
        some (.jsonErrors 502 [acceptedNotForwardedMsg, sheetsHttpErrMsg 500]) := by
  have h := C1_amended ("u".data) fetchHdrs sampleOkForm none ("T1".data) ("T2".data)
    (by decide) (by decide)
  simpa [show _wants_json fetchHdrs = true from by decide] using h

/-- C2: when validation produces a non-empty error list, nothing is
written to either sink and the outcome does not depend on the network at
all (no remote interaction); and every record ever persisted carries
exactly the cleaned field values. -/
theorem C2_thm (url : List Char) (hdrs : Headers) (form : RawForm)
    (net : NetResult) (now tLog : List Char) :
    (formErrors (cleanForm form) ≠ [] →
      (contact url hdrs form net now tLog).submissionsLog = [] ∧
      (contact url hdrs form net now tLog).failuresLog = [] ∧
      ∀ net2, contact url hdrs form net2 now tLog =
        contact url hdrs form net now tLog) ∧
    (∀ r ∈ (contact url hdrs form net now tLog).submissionsLog,
      r.name = (cleanForm form).name ∧ r.phone = (cleanForm form).phone ∧
      r.service = (cleanForm form).service ∧
      r.message = (cleanForm form).message) := by
  constructor
  · intro h
    refine ⟨?_, ?_, ?_⟩
    · rw [contact_of_errors url hdrs form net now tLog h]
      cases hw : _wants_json hdrs <;> simp [hw]
    · rw [contact_of_errors url hdrs form net now tLog h]
      cases hw : _wants_json hdrs <;> simp [hw]
    · intro net2
      rw [contact_of_errors url hdrs form net now tLog h,
        contact_of_errors url hdrs form net2 now tLog h]
  · by_cases hv : formErrors (cleanForm form) = []
    · rw [contact_of_ok url hdrs form net now tLog hv]
      cases hsend : _send_to_sheets url (mkRecord (cleanForm form) now) net with
      | none => simp
      | some pr =>
        obtain ⟨ok, err⟩ := pr
        cases ok <;> cases hw : _wants_json hdrs <;>
          simp [hw, mkRecord]
    · rw [contact_of_errors url hdrs form net now tLog hv]
      cases hw : _wants_json hdrs <;> simp [hw]

/-- C2 witness: a concrete request failing validation writes to neither
sink. -/
theorem C2_w :
    (contact ("u".data) browserHdrs ⟨none, none, none, none⟩ .exn
      ("T".data) ("T".data)).submissionsLog = [] ∧
    (contact ("u".data) browserHdrs ⟨none, none, none, none⟩ .exn
      ("T".data) ("T".data)).failuresLog = [] := by
  have h := (C2_thm ("u".data) browserHdrs ⟨none, none, none, none⟩ .exn
    ("T".data) ("T".data)).1 (by decide)
  exact ⟨h.1, h.2.1⟩

/-- C3: in the lenient-mode handler (modelled from the spec, the lenient
variant's source being absent from src/), a validated browser submission
with an unreachable remote sink still gets the success redirect, the
local write proceeds (exactly one record), no failure is logged, and the
outcome ignores the network result entirely. -/
theorem C3_thm (hdrs : Headers) (form : RawForm) (now : List Char)
    (hv : formErrors (cleanForm form) = []) (hb : _wants_json hdrs = false) :
    (contactLenient hdrs form .exn now).resp = some .redirectSubmitted ∧
    (contactLenient hdrs form .exn now).submissionsLog =
      [mkRecord (cleanForm form) now] ∧
    (contactLenient hdrs form .exn now).failuresLog = [] ∧
    ∀ net : NetResult, contactLenient hdrs form net now =
      contactLenient hdrs form .exn now := by
  refine ⟨?_, ?_, ?_, fun net => rfl⟩ <;>
    simp [contactLenient, hv, hb]

/-- C3 witness: the theorem at a concrete valid browser submission. -/
theorem C3_w :
    (contactLenient browserHdrs sampleOkForm .exn ("T".data)).resp =
      some .redirectSubmitted ∧
    (contactLenient browserHdrs sampleOkForm .exn ("T".data)).submissionsLog =
      [mkRecord (cleanForm sampleOkForm) ("T".data)] ∧
    (contactLenient browserHdrs sampleOkForm .exn ("T".data)).failuresLog = [] := by
  have h := C3_thm browserHdrs sampleOkForm ("T".data) (by decide) (by decide)
  exact ⟨h.1, h.2.1, h.2.2.1⟩

/-- C7 counterexample: a machine/JSON-flow validation error is answered
with only the ok flag and the error list; the response constructor
carries no field echo, against the claim that every error response in the
machine flow includes the cleaned field values. -/
theorem C7_cex :
    (contact (SHEETS_WEBHOOK_URL none) fetchHdrs ⟨none, none, none, none⟩ .exn
      ("T".data) ("T".data)).resp =
        some (.jsonErrors 400 [nameErrMsg, phoneErrMsg]) ∧
    respEchoesForm (.jsonErrors 400 [nameErrMsg, phoneErrMsg]) = none := by
  decide

/-- C7 (amended): browser-flow error responses include the cleaned field
values alongside a non-empty error list (every form page the handler
returns echoes exactly the cleaned values), while machine/JSON flow
responses never carry a field echo. -/
theorem C7_amended (url : List Char) (hdrs : Headers) (form : RawForm)
    (net : NetResult) (now tLog : List Char) :
    (∀ errs fd2,
      (contact url hdrs form net now tLog).resp = some (.formPage errs fd2) →
      fd2 = cleanForm form ∧ errs ≠ []) ∧
    (_wants_json hdrs = true →
      ∀ r, (contact url hdrs form net now tLog).resp = some r →
        respEchoesForm r = none) := by
  by_cases hv : formErrors (cleanForm form) = []
  · rw [contact_of_ok url hdrs form net now tLog hv]
    cases hsend : _send_to_sheets url (mkRecord (cleanForm form) now) net with
    | none => simp
    | some pr =>
      obtain ⟨ok, err⟩ := pr
      cases ok <;> cases hw : _wants_json hdrs <;>
        simp [hw, respEchoesForm]
  · rw [contact_of_errors url hdrs form net now tLog hv]
    cases hw : _wants_json hdrs <;> simp [hw, respEchoesForm, hv]

/-- C7 witness: the amended theorem at a concrete browser-flow validation
failure, whose form-page response echoes the cleaned (empty) values next
to a non-empty error list. -/
theorem C7_w :
    cleanForm ⟨none, none, none, none⟩ = cleanForm ⟨none, none, none, none⟩ ∧
      ([nameErrMsg, phoneErrMsg] : List (List Char)) ≠ [] :=
  (C7_amended ("u".data) browserHdrs ⟨none, none, none, none⟩ .exn
    ("T".data) ("T".data)).1 [nameErrMsg, phoneErrMsg]
    (cleanForm ⟨none, none, none, none⟩) (by decide)

/-- C10: absent form fields are read as the empty string (filling every
absent field with the present empty string leaves the outcome unchanged),
and a request with name and phone both absent is rejected with the two
validation messages - an ordinary response, not an unhandled failure -
with nothing written to either sink. -/
theorem C10_thm (url : List Char) (hdrs : Headers) (form : RawForm)
    (net : NetResult) (now tLog : List Char) :
    contact url hdrs form net now tLog =
      contact url hdrs (fillForm form) net now tLog ∧
    (form.name = none → form.phone = none →
      (contact url hdrs form net now tLog).submissionsLog = [] ∧
      (contact url hdrs form net now tLog).failuresLog = [] ∧
      (contact url hdrs form net now tLog).resp =
        some (if _wants_json hdrs then
                ContactResp.jsonErrors 400 [nameErrMsg, phoneErrMsg]
              else .formPage [nameErrMsg, phoneErrMsg] (cleanForm form))) := by
  constructor
  · rfl
  · intro hn hp
    have hfe : formErrors (cleanForm form) = [nameErrMsg, phoneErrMsg] := by
      have h1 : (cleanForm form).name = [] := by
        simp [cleanForm, hn, _clean_text, pyStrip, pyLStrip, pyRStrip]
      have h2 : (cleanForm form).phone = [] := by
        simp [cleanForm, hp, _clean_text, pyStrip, pyLStrip, pyRStrip]
      rw [formErrors, h1, h2]
      decide
    rw [contact_of_errors url hdrs form net now tLog (by rw [hfe]; decide)]
    cases hw : _wants_json hdrs <;> simp [hw, hfe]

/-- C10 witness: the theorem at a concrete browser request with name and
phone absent: nothing written, rejection with both messages. -/
theorem C10_w :
    (contact ("u".data) browserHdrs ⟨none, none, some [], some []⟩ .exn
      ("T".data) ("T".data)).submissionsLog = [] ∧
    (contact ("u".data) browserHdrs ⟨none, none, some [], some []⟩ .exn
      ("T".data) ("T".data)).failuresLog = [] ∧
    (contact ("u".data) browserHdrs ⟨none, none, some [], some []⟩ .exn
      ("T".data) ("T".data)).resp =
        some (.formPage [nameErrMsg, phoneErrMsg]
          (cleanForm ⟨none, none, some [], some []⟩)) := by
  have h := (C10_thm ("u".data) browserHdrs ⟨none, none, some [], some []⟩ .exn
    ("T".data) ("T".data)).2 rfl rfl
  simpa [show _wants_json browserHdrs = false from by decide] using h

end DataStudio
